import Mathlib

/-!
# Formal model of the n8n process-supervisor scripts

This file gives a shallow embedding of the three process-supervisor variants
in the repository and proves/refutes the frozen claims about them:

* `Bash`    — the shell script (`serve-n8n.sh`, shipped inside the README
  bundle): `is_running`, `detect_runtime`, `start_server`, `stop_server`,
  `monitor_server`.  The script runs under `set -euo pipefail`, so the model
  tracks `errexit` semantics explicitly: a failing plain command aborts the
  whole script, while commands evaluated as an `if`/`while` condition (and
  everything inside a function that is itself called as a condition) are
  exempt.  In particular the Bash arithmetic command `((x++))` has exit
  status 1 when the pre-increment value of `x` is 0, so under `errexit` the
  first such increment kills the script; this behaviour is modelled
  faithfully.
* `Mjs`     — `scripts/serve-n8n.mjs` (Node, single file).
* `Modular` — `server/src/*.mjs` (Node, the modular variant exporting
  `start_server`, `stop_server`, `restart_server`, `monitor_server`).

The external world is an oracle record `Env` (OS process table, HTTP health
probe, `which` lookups, pids handed out by `spawn`).  Supervisor-visible
state is `St`: the pid record, logical time in seconds (advanced only by
sleeps), a trace of observable effects (spawns, signals, log lines), and the
set of registered process-exit handlers.  All definitions are executable and
mirror the corresponding source functions one-to-one.
-/

namespace Supervisor

/-- Observable effects of a supervisor run: child spawns, signals delivered to
a pid, and log lines by level (`alert` is the warning level of the sources). -/
inductive Effect where
  | spawn (cmd : String)
  | sigterm (pid : Nat)
  | sigkill (pid : Nat)
  | info (msg : String)
  | alert (msg : String)
  | error (msg : String)
  | success (msg : String)
  deriving DecidableEq, Repr

/-- Oracles for everything outside the supervisor process.

* `alive t pid` — whether the OS reports process `pid` alive at time `t`
  (`kill -0` / `process.kill(pid, 0)` succeeding).
* `health t` — whether the HTTP probe of the configured port succeeds at
  time `t` (bash `curl -f`, mjs `curl -f`, modular `fetch(...).ok`).
* `fetchFails t` — whether, in the modular variant, the `fetch` call itself
  throws at time `t` (connection refused / transport error), as opposed to
  returning a response with `ok = false`.
* `which name` — whether `name` is on the search path (`command -v`,
  `which`).
* `spawnPid t` — the pid the OS assigns to a child spawned at time `t`.
* `psScan t` — the pid found by the modular `get_pid` fallback that greps
  the process table for an n8n process when the pid file is empty. -/
structure Env where
  alive : Nat → Nat → Bool
  health : Nat → Bool
  fetchFails : Nat → Bool
  which : String → Bool
  spawnPid : Nat → Nat
  psScan : Nat → Option Nat

/-- The four process events the modular variant registers cleanup handlers
for (`beforeExit`, `uncaughtException`, `SIGINT`, `SIGTERM`). -/
inductive TermEvent where
  | beforeExit
  | uncaughtException
  | sigint
  | sigterm
  deriving DecidableEq, Repr

/-- Supervisor-visible state: the persistent pid record (`none` = file absent
or empty), logical time in seconds, the effect trace so far, and the process
event handlers registered by the modular variant. -/
structure St where
  pidFile : Option Nat
  time : Nat
  trace : List Effect
  handlers : List TermEvent
  deriving DecidableEq, Repr

/-- Append one observable effect to the trace. -/
def emit (e : Effect) (s : St) : St := { s with trace := s.trace ++ [e] }

/-- Advance logical time by `n` seconds (a sleep). -/
def tick (n : Nat) (s : St) : St := { s with time := s.time + n }

/-- Number of child processes spawned in a trace. -/
def countSpawns (t : List Effect) : Nat :=
  (t.filter fun e => match e with | .spawn _ => true | _ => false).length

/-- Number of graceful-termination signals in a trace. -/
def countSigterms (t : List Effect) : Nat :=
  (t.filter fun e => match e with | .sigterm _ => true | _ => false).length

/-- Number of forceful kill signals in a trace. -/
def countSigkills (t : List Effect) : Nat :=
  (t.filter fun e => match e with | .sigkill _ => true | _ => false).length

/-- Whether a trace contains an error log whose message is `msg`. -/
def hasError (msg : String) (t : List Effect) : Bool :=
  t.contains (.error msg)

/-- Outcome of a (potentially) long-running loop: `fuelOut` means the model
ran out of fuel with the loop still going (the claims only ever need runs
that settle within the supplied fuel), `exited code` means the hosting OS
process terminated with the given exit code. -/
inductive Outcome where
  | fuelOut
  | exited (code : Nat)
  deriving DecidableEq, Repr

namespace Bash

/-- Result of running a piece of the shell script: `.error (s, code)` means
the whole script terminated (an explicit `exit`, a propagated `return 1`
under `errexit`, or a failing command under `errexit`); `.ok (s, status)`
means the function returned normally with exit status `status`. -/
abbrev Res := Except (St × Nat) (St × Nat)

/-- `is_running` of `serve-n8n.sh`: if the pid file exists, `kill -0` the
recorded pid; on failure remove the stale pid file (`rm -f "${PID_FILE}"`)
and report not running. -/
def is_running (env : Env) (s : St) : St × Bool :=
  match s.pidFile with
  | some pid =>
      if env.alive s.time pid then (s, true)
      else ({ s with pidFile := none }, false)
  | none => (s, false)

/-- `detect_runtime`: try `bun`, `npx`, `npm` in order and return the first
one available on the search path. -/
def detect_runtime (env : Env) : Option String :=
  if env.which "bun" then some "bun"
  else if env.which "npx" then some "npx"
  else if env.which "npm" then some "npm"
  else none

/-- `get_start_command`: the launch command for each runtime. -/
def get_start_command : String → String
  | "bun" => "bun n8n"
  | "npx" => "npx n8n"
  | _ => "npm run serve"

/-- The readiness-wait loop of `start_server` (`attempts` up to
`max_attempts = 30`): probe; on success return 0; otherwise `sleep 2`,
`((attempts++))` — which under `errexit` aborts the script when the old
value of `attempts` is 0 — then re-check liveness, failing (clearing the pid
file) if the child died.  `fuel` is the number of loop iterations left. -/
def health_loop (env : Env) (errexit : Bool) (pid : Nat) :
    Nat → Nat → St → Res
  | 0, _, s =>
      let s := emit (.alert "Server started but health check failed. It may still be initializing.") s
      .ok (s, 0)
  | fuel + 1, attempts, s =>
      if env.health s.time then
        .ok (emit (.success "Server is ready and responding") s, 0)
      else
        let s := tick 2 s
        if errexit ∧ attempts = 0 then .error (s, 1)
        else
          let attempts := attempts + 1
          if env.alive s.time pid then
            health_loop env errexit pid fuel attempts s
          else
            let s := emit (.error "Server process died during startup") { s with pidFile := none }
            if errexit then .error (s, 1) else .ok (s, 1)

/-- `start_server` of `serve-n8n.sh`: pick a runtime (explicit `exit 1` if
none), spawn the child in the background, write its pid, `sleep 5`, re-check
liveness (failure return 1, clearing the pid file), then run the readiness
loop.  `errexit` records whether the function was invoked as a plain command
(aborting the script on a nonzero return) or as an `if` condition (as
`monitor_server` invokes it), which suspends `errexit` inside the body. -/
def start_server (env : Env) (errexit : Bool) (s : St) : Res :=
  match detect_runtime env with
  | none => .error (emit (.error "No suitable Node.js runtime found") s, 1)
  | some runtime =>
      let s := emit (.info "Starting n8n server") s
      let s := emit (.spawn (get_start_command runtime)) s
      let pid := env.spawnPid s.time
      let s := { s with pidFile := some pid }
      let s := tick 5 s
      if env.alive s.time pid then
        let s := emit (.success "n8n server started successfully") s
        let s := emit (.alert "Waiting for server to be ready") s
        health_loop env errexit pid 30 0 s
      else
        let s := emit (.error "n8n server failed to start") { s with pidFile := none }
        if errexit then .error (s, 1) else .ok (s, 1)

/-- The graceful-wait loop of `stop_server`:
`while [ attempts -lt 10 ] && kill -0 pid; do sleep 1; ((attempts++)); done`.
Under `errexit` the first `((attempts++))` (old value 0) aborts the script.
`fuel` is `10 - attempts`. -/
def term_wait_loop (env : Env) (errexit : Bool) (pid : Nat) :
    Nat → Nat → St → Except (St × Nat) St
  | 0, _, s => .ok s
  | fuel + 1, attempts, s =>
      if env.alive s.time pid then
        let s := tick 1 s
        if errexit ∧ attempts = 0 then .error (s, 1)
        else term_wait_loop env errexit pid fuel (attempts + 1) s
      else .ok s

/-- `stop_server` of `serve-n8n.sh`: no-op when not running; otherwise
`kill -TERM` (the `if kill -TERM ...` condition succeeds exactly when the
process exists), the bounded graceful-wait loop, a single `kill -KILL` if
still alive, then `rm -f` of the pid file and a success message. -/
def stop_server (env : Env) (errexit : Bool) (s : St) : Res :=
  let (s, running) := is_running env s
  if running then
    match s.pidFile with
    | none => .ok (s, 0)
    | some pid =>
        let s := emit (.info "Stopping n8n server") s
        if env.alive s.time pid then
          let s := emit (.sigterm pid) s
          match term_wait_loop env errexit pid 10 0 s with
          | .error e => .error e
          | .ok s =>
              let s :=
                if env.alive s.time pid then
                  emit (.sigkill pid) (emit (.alert "Graceful shutdown failed, force killing") s)
                else s
              let s := { s with pidFile := none }
              .ok (emit (.success "n8n server stopped") s, 0)
        else
          let s := { s with pidFile := none }
          .ok (emit (.success "n8n server stopped") s, 0)
  else
    .ok (emit (.alert "n8n server is not running") s, 0)

/-- `monitor_server` of `serve-n8n.sh` (invoked as a plain command, so
`errexit` is active in its body; the `if start_server; then` call suspends
`errexit` inside `start_server`).  Each iteration: if not running, exit 1
once `restart_count` reaches `MAX_RESTARTS = 5`, otherwise attempt a
restart — on success reset the counter, on failure `((restart_count++))`
(which under `errexit` aborts the script whenever the old value is 0,
i.e. on every failed restart, since the counter can never leave 0) then
`sleep RESTART_DELAY`; if running, probe and warn on failure; then
`sleep HEALTH_CHECK_INTERVAL` (30). -/
def monitor_loop (env : Env) (errexit : Bool) : Nat → Nat → St → St × Outcome
  | 0, _, s => (s, .fuelOut)
  | fuel + 1, restart_count, s =>
      let (s, running) := is_running env s
      if running then
        let s := if env.health s.time then s else emit (.alert "Health check failed") s
        monitor_loop env errexit fuel restart_count (tick 30 s)
      else
        if restart_count ≥ 5 then
          (emit (.error "Maximum restart attempts reached. Monitor exiting.") s, .exited 1)
        else
          let s := emit (.alert "Server not running. Attempting restart") s
          match start_server env false s with
          | .error (s, code) => (s, .exited code)
          | .ok (s, status) =>
              if status = 0 then
                let s := emit (.success "Server restarted successfully") s
                monitor_loop env errexit fuel 0 (tick 30 s)
              else if errexit ∧ restart_count = 0 then
                (s, .exited 1)
              else
                let s := emit (.error "Restart attempt failed") s
                monitor_loop env errexit fuel (restart_count + 1) (tick 30 (tick 10 s))

end Bash

namespace Mjs

/-- `is_running` of `serve-n8n.mjs`: read the pid file; `send_signal(pid, 0)`
throws for a dead pid, and the surrounding `try`/`catch` returns `undefined`.
Unlike the shell variant, a stale pid file is NOT removed. -/
def is_running (env : Env) (s : St) : St × Option Nat :=
  match s.pidFile with
  | some pid => if env.alive s.time pid then (s, some pid) else (s, none)
  | none => (s, none)

/-- The startup readiness loop of `start_server`
(`while (attempts < max_attempts)`, `max_attempts = 10`): probe; on success
log and return; otherwise `sleep 3` and increment `attempts`; then abort
(clearing the pid file) if the process died, else log a not-ready alert.
Every `return` of the source evaluates to `undefined`, modelled as `none`. -/
def start_health_loop (env : Env) : Nat → Nat → St → St × Option Nat
  | 0, _, s =>
      (emit (.alert "health check failed, but the process is running") s, none)
  | fuel + 1, attempts, s =>
      if env.health s.time then
        (emit (.success "server is ready and responding") s, none)
      else
        let s := tick 3 s
        let attempts := attempts + 1
        let (s, r) := is_running env s
        match r with
        | none =>
            let s := emit (.error "server process died during startup") s
            ({ s with pidFile := none }, none)
        | some _ => start_health_loop env fuel attempts (emit (.alert "not ready yet") s)

/-- `start_server` of `serve-n8n.mjs`: if `is_running()` reports a pid, log
`server is already running` and return (the return value is
`log(...) = undefined`, i.e. `none` — the existing pid is only logged, never
returned).  Otherwise spawn `npx n8n` unconditionally (this variant has no
runtime fallback), write the pid file, sleep 5 seconds, re-check liveness
(on failure log an error and clear the pid file), then run the readiness
loop. -/
def start_server (env : Env) (s : St) : St × Option Nat :=
  let (s, existing) := is_running env s
  match existing with
  | some _ => (emit (.info "server is already running") s, none)
  | none =>
      let s := emit (.info "starting n8n server") s
      let s := emit (.spawn "npx n8n") s
      let pid := env.spawnPid s.time
      let s := { s with pidFile := some pid }
      let s := tick 5 s
      let (s, r) := is_running env s
      match r with
      | none =>
          let s := emit (.error "n8n server failed to start") s
          ({ s with pidFile := none }, none)
      | some _ =>
          let s := emit (.success "n8n server started successfully") s
          let s := emit (.alert "waiting for server to be ready") s
          start_health_loop env 10 0 s

/-- The inner `try_kill` of `stop_server`: `send_signal(id, SIGTERM)` returns
`true` when the signal is delivered (process exists) and throws otherwise,
in which case the `catch` returns `false`. -/
def try_kill (env : Env) (pid : Nat) (s : St) : St × Bool :=
  if env.alive s.time pid then (emit (.sigterm pid) s, true) else (s, false)

/-- The wait loop of `stop_server`:
`while (ct < 10 && !try_kill()) await sleep(1, () => ct++)` — note it loops
only while `try_kill()` FAILS.  `fuel` is `10 - ct`. -/
def stop_wait_loop (env : Env) (pid : Nat) : Nat → St → St
  | 0, s => s
  | fuel + 1, s =>
      let (s, delivered) := try_kill env pid s
      if delivered then s
      else stop_wait_loop env pid fuel (tick 1 s)

/-- `stop_server` of `serve-n8n.mjs`.  After the initial `try_kill()`, the
escalation block runs only under `if (!try_kill())` — i.e. only when the
FIRST `SIGTERM` could not be delivered.  When the first `SIGTERM` succeeds
(the normal case) the block is skipped entirely: no graceful wait, no
`SIGKILL`.  The pid file is then cleared unconditionally and a success
message logged. -/
def stop_server (env : Env) (s : St) : St :=
  let (s, r) := is_running env s
  match r with
  | none => emit (.alert "server is not running") s
  | some pid =>
      let s := emit (.info "stopping n8n server") s
      let (s, delivered) := try_kill env pid s
      let s :=
        if delivered then s
        else
          let s := stop_wait_loop env pid 10 s
          let (s, r2) := is_running env s
          match r2 with
          | some pid2 =>
              emit (.sigkill pid2) (emit (.alert "graceful shutdown failed; force killing") s)
          | none => s
      let s := { s with pidFile := none }
      emit (.success "server stopped successfully") s

/-- `monitor_server` of `serve-n8n.mjs`.  Each iteration: if not running and
`ct >= max_restarts (5)`, log `maximum restart attempts exceeded. exiting.`
and RETURN from the async function — no `process.exit` is called anywhere in
this variant, so the Node process then terminates with exit code 0, modelled
as `.exited 0`.  Otherwise call `start_server()`, then re-check liveness: on
success log (the counter is never reset in this variant), on failure log and
`sleep restart_delay (10)` incrementing `ct`.  If running but unhealthy, log
a warning only.  Every path then sleeps `health_interval (30)`. -/
def monitor_loop (env : Env) : Nat → Nat → St → St × Outcome
  | 0, _, s => (s, .fuelOut)
  | fuel + 1, ct, s =>
      let (s, r) := is_running env s
      match r with
      | some _ =>
          let s :=
            if env.health s.time then s
            else emit (.alert "health check failed, but server is running") s
          monitor_loop env fuel ct (tick 30 s)
      | none =>
          if ct ≥ 5 then
            (emit (.error "maximum restart attempts exceeded. exiting.") s, .exited 0)
          else
            let s := emit (.alert "server is not running. restarting") s
            let (s, _) := start_server env s
            let (s, r2) := is_running env s
            match r2 with
            | some _ =>
                let s := emit (.success "server restarted successfully") s
                monitor_loop env fuel ct (tick 30 s)
            | none =>
                let s := emit (.error "restart attempt failed") s
                monitor_loop env fuel (ct + 1) (tick 30 (tick 10 s))

end Mjs

namespace Modular

/-- `set_pid` of the modular variant: `null` removes the pid file
(`safe_rm`), anything else overwrites it. -/
def set_pid (p : Option Nat) (s : St) : St := { s with pidFile := p }

/-- `get_pid` of the modular variant: read the pid file; if it is empty,
fall back to scanning the OS process table for an n8n process (`ps`/`grep`)
and persist whatever that found (`set_pid(pid || null)`). -/
def get_pid (env : Env) (s : St) : St × Option Nat :=
  match s.pidFile with
  | some pid => (s, some pid)
  | none =>
      match env.psScan s.time with
      | some pid => (set_pid (some pid) s, some pid)
      | none => (set_pid none s, none)

/-- `inspect_state` of the modular variant: get the pid, `send_signal(pid,0)`
(throws for a dead pid), then `fetch` the health endpoint and report
`[pid, res.ok]`.  The single `try`/`catch` around the whole body collapses
BOTH a dead pid AND a throwing `fetch` (connection refused / transport
error) to `undefined`, and a stale pid record is never removed here. -/
def inspect_state (env : Env) (s : St) : St × Option (Nat × Bool) :=
  let (s, p) := get_pid env s
  match p with
  | none => (s, none)
  | some pid =>
      if env.alive s.time pid then
        if env.fetchFails s.time then (s, none)
        else (s, some (pid, env.health s.time))
      else (s, none)

/-- The `initialize_handlers` function of the modular variant: register a
handler on each of `beforeExit`, `uncaughtException`, `SIGINT` and `SIGTERM`
that runs `set_pid(null)`. -/
def install_handlers (s : St) : St :=
  { s with
    handlers := [TermEvent.beforeExit, TermEvent.uncaughtException,
                 TermEvent.sigint, TermEvent.sigterm] }

/-- Ways the supervisor's own Node process can terminate. -/
inductive TermCause where
  | loopDrain
  | uncaughtThrow
  | sigint
  | sigterm
  | explicitExit
  | sigkilled
  deriving DecidableEq, Repr

/-- Modelled from Node's documented process-event semantics (the dispatch of
`process.on` handlers, which is runtime behaviour, not repository code):
a normally draining event loop emits `beforeExit`, an uncaught exception
emits `uncaughtException`, and trappable signals emit their events; an
explicit `process.exit(...)` and an untrappable kill emit NONE of these four
events. -/
def firedEvent : TermCause → Option TermEvent
  | .loopDrain => some .beforeExit
  | .uncaughtThrow => some .uncaughtException
  | .sigint => some .sigint
  | .sigterm => some .sigterm
  | .explicitExit => none
  | .sigkilled => none

/-- Terminate the supervisor process for cause `c`: if the corresponding
process event has a registered handler, that handler (`set_pid(null)`) runs
before the process goes away. -/
def terminate_supervisor (c : TermCause) (s : St) : St :=
  match firedEvent c with
  | some e => if e ∈ s.handlers then set_pid none s else s
  | none => s

/-- The `refresh` closure of the modular `stop_server`:
`(await inspect_state() ?? [])[0]` — the current pid if the process is alive
and probe-able, else `undefined`. -/
def refresh (env : Env) (s : St) : St × Option Nat :=
  let (s, st) := inspect_state env s
  (s, st.map Prod.fst)

/-- The `try_kill` closure of the modular `stop_server`: resolve the pid
(either `refresh()` or the pid captured at entry), send `SIGTERM` (throws
for a dead pid, caught to `undefined`), then `sleep(1, refresh)` — so the
result is the pid if the process is STILL alive one second after the
`SIGTERM`, else `none`. -/
def try_kill (env : Env) (useRefresh : Bool) (pid0 : Nat) (s : St) :
    St × Option Nat :=
  let (s, pidq) := if useRefresh then refresh env s else (s, some pid0)
  match pidq with
  | none => (s, none)
  | some pid =>
      if env.alive s.time pid then
        refresh env (tick 1 (emit (.sigterm pid) s))
      else (s, none)

/-- The wait loop of the modular `stop_server`:
`while (ct < 10 && !(pid = await try_kill(true))) await sleep(1, () => ct++)`
— it loops while the process appears DEAD one second after each `SIGTERM`,
and stops as soon as `try_kill` reports a still-alive pid.  `fuel` is
`10 - ct`. -/
def stop_wait_loop (env : Env) (pid0 : Nat) : Nat → St → St × Option Nat
  | 0, s => (s, none)
  | fuel + 1, s =>
      let (s, p) := try_kill env true pid0 s
      match p with
      | some pid => (s, some pid)
      | none => stop_wait_loop env pid0 fuel (tick 1 s)

/-- `stop_server` of the modular variant.  Note the final branch: when the
process is STILL inspectable afterwards, it logs `could not kill process`
and returns `[pid, health]` WITHOUT clearing the pid record; `set_pid(null)`
runs only on the confirmed-dead path. -/
def stop_server (env : Env) (s : St) : St × Option (Nat × Bool) :=
  let (s, st) := inspect_state env s
  match st with
  | none => (emit (.alert "server is not running") s, none)
  | some (pid0, _) =>
      let s := emit (.info "stopping n8n server") s
      let (s, first) := try_kill env false pid0 s
      let s :=
        match first with
        | none => s
        | some _ =>
            let (s, _) := stop_wait_loop env pid0 10 s
            let (s, p) := refresh env s
            match p with
            | some pid =>
                emit (.sigkill pid) (emit (.alert "graceful shutdown failed; force killing") s)
            | none => s
      let (s, final) := inspect_state env s
      match final with
      | some (pid, health) =>
          (emit (.error "could not kill process") s, some (pid, health))
      | none =>
          (emit (.success "server stopped successfully") (set_pid none s), none)

/-- The startup readiness loop of the modular `start_server`
(`while (ct < max)` with `max = floor(startup_timeout / restart_delay) = 6`):
inspect; if healthy, log and return the state; otherwise `sleep 3` and
increment `ct`; then, if the same inspection yielded no pid (which also
happens for a live process whose `fetch` threw), log
`server process died during startup` and return `undefined`; else log a
not-ready alert and continue.  On exhaustion log a warning and return a
fresh `inspect_state()` — i.e. report success with whatever is there. -/
def start_health_loop (env : Env) : Nat → Nat → St → St × Option (Nat × Bool)
  | 0, _, s =>
      let s := emit (.alert "health check failed, but the process is running") s
      inspect_state env s
  | fuel + 1, ct, s =>
      let (s, cur) := inspect_state env s
      match cur with
      | some (pid, true) =>
          (emit (.success "server is ready and responding") s, some (pid, true))
      | some (_, false) =>
          let s := tick 3 s
          start_health_loop env fuel (ct + 1) (emit (.alert "not ready yet") s)
      | none =>
          let s := tick 3 s
          (emit (.error "server process died during startup") s, none)

/-- The common tail of the modular `start_server` after the
already-running/unresponsive checks: pick a runtime — this variant tests
only `bun` then `npm` (there is NO `npx` candidate) — and fail with
`no node runtime detected` if neither is available; otherwise spawn
`<runtime> x n8n`, record the pid, register the exit handlers
(`initialize_handlers`), sleep 5 seconds, re-check via `inspect_state` —
on failure log `n8n server failed to start` and return `undefined`
WITHOUT clearing the pid record — then run the readiness loop. -/
def start_spawn (env : Env) (s : St) : St × Option (Nat × Bool) :=
  let s := emit (.info "starting n8n server") s
  match (if env.which "bun" then some "bun"
         else if env.which "npm" then some "npm"
         else none : Option String) with
  | none => (emit (.error "no node runtime detected") s, none)
  | some runtime =>
      let s := emit (.spawn (runtime ++ " x n8n")) s
      let pid := env.spawnPid s.time
      let s := set_pid (some pid) s
      let s := install_handlers s
      let s := tick 5 s
      let (s, st) := inspect_state env s
      match st with
      | none => (emit (.error "n8n server failed to start") s, none)
      | some _ =>
          let s := emit (.success "n8n server started successfully") s
          let s := emit (.alert "waiting for server to be ready") s
          start_health_loop env 6 0 s

/-- `start_server` of the modular variant: inspect; if healthy, log
`server is already running` and return the state `[pid, health]`; if a pid
is there but unresponsive, log and run a full `stop_server()` first; then
proceed to spawn (`start_spawn`). -/
def start_server (env : Env) (s : St) : St × Option (Nat × Bool) :=
  let (s, state) := inspect_state env s
  match state with
  | some (pid, true) => (emit (.info "server is already running") s, some (pid, true))
  | some (_, false) =>
      let s := (stop_server env (emit (.alert "server is running but is unresponsive") s)).1
      start_spawn env s
  | none => start_spawn env s

/-- `restart_server` of the modular variant (`_ct` is the attempt counter
threaded through the `retry_restart` recursion; recursion fuel is explicit,
`.error s` meaning the model ran out of fuel).  Inspect; log an info line
whose payload calls `state_message()` (a second inspection); return the
`exceed` result when `_ct >= max_restarts (5)` AND no pid is present;
return `ok` when `_ct` is nonzero and the state is healthy; otherwise stop
any present process, log, `sleep 2`, `start_server()`, and on a falsy start
result run `retry_restart`: log, `sleep restart_delay (10)`, recurse with
`_ct + 1`.  (The source's `.catch` handler is unreachable in the model, as
no modelled operation throws.) -/
def restart_server (env : Env) :
    Nat → Nat → St → Except St (St × Option (Nat × Bool))
  | 0, _, s => .error s
  | fuel + 1, ct, s =>
      let (s, st) := inspect_state env s
      let pidq := st.map Prod.fst
      let health := (st.map Prod.snd).getD false
      let (s, _) := inspect_state env s
      let s := emit (.info "restart attempt status") s
      if ct ≥ 5 ∧ pidq = none then
        .ok (emit (.error "maximum restart attempts exceeded. exiting.") s, none)
      else if ct ≠ 0 ∧ pidq.isSome ∧ health then
        .ok (emit (.success "server restarted successfully") s, st)
      else
        let s := if pidq.isSome then (stop_server env s).1 else s
        let s := emit (.alert "attempting to restart server") s
        let s := tick 2 s
        let (s, st2) := start_server env s
        match st2 with
        | some state => .ok (emit (.success "server restarted successfully") s, some state)
        | none =>
            let s := emit (.error "restart attempt failed. waiting") s
            restart_server env fuel (ct + 1) (tick 10 s)

/-- The monitor loop of the modular `monitor_server`: inspect; if healthy,
log at SUCCESS level and sleep `health_interval (30)`; otherwise — for ANY
non-healthy state, including a live process whose probe merely reports
unhealthy — call `restart_server()`, and if it returned `undefined`
(restarts exceeded) log at ERROR level and `process.exit(1)` (`.ok (s, 1)`),
else log and sleep.  `.error s` again means the model ran out of fuel. -/
def monitor_loop (env : Env) : Nat → St → Except St (St × Nat)
  | 0, s => .error s
  | fuel + 1, s =>
      let (s, st) := inspect_state env s
      let health := (st.map Prod.snd).getD false
      if health then
        let (s, _) := inspect_state env s
        let s := emit (.success "server status") s
        monitor_loop env fuel (tick 30 s)
      else
        match restart_server env fuel 0 s with
        | .error s => .error s
        | .ok (s, state) =>
            match state with
            | none =>
                let (s, _) := inspect_state env s
                .ok (emit (.error "server status") s, 1)
            | some _ =>
                let (s, _) := inspect_state env s
                let s := emit (.info "server status") s
                monitor_loop env fuel (tick 30 s)

/-- `monitor_server` of the modular variant: start the server if nothing is
inspectable, log, then run the monitor loop. -/
def monitor_server (env : Env) (fuel : Nat) (s : St) : Except St (St × Nat) :=
  let (s, st) := inspect_state env s
  let s := if st.isSome then s else (start_server env s).1
  let s := emit (.info "starting server monitor with auto-restart enabled") s
  monitor_loop env fuel s

end Modular

/-! ## Concrete scenario environments used by the claim theorems -/

/-- Clean initial state: no pid record, time 0, empty trace, no handlers. -/
def st0 : St := { pidFile := none, time := 0, trace := [], handlers := [] }

/-- A state whose pid record holds `pid` (and nothing else going on). -/
def stTracked (pid : Nat) : St :=
  { pidFile := some pid, time := 0, trace := [], handlers := [] }

/-- A world where every spawned child is already dead at every liveness
check (the "child immediately dies on every start attempt" scenario); `bun`
is on the path, spawns hand out pid 100. -/
def envDead : Env :=
  { alive := fun _ _ => false
    health := fun _ => false
    fetchFails := fun _ => false
    which := fun r => r == "bun"
    spawnPid := fun _ => 100
    psScan := fun _ => none }

/-- A world where every process is alive at every check (it ignores both
`SIGTERM` and `SIGKILL`) but the health probe always fails with a non-ok
response. -/
def envAlive : Env := { envDead with alive := fun _ _ => true }

/-- A world where every process is alive and the health probe always
succeeds. -/
def envHealthy : Env :=
  { envAlive with health := fun _ => true }

/-- A world where only `npx` is on the search path. -/
def envNpxOnly : Env := { envDead with which := fun r => r == "npx" }

/-- A world with a live child whose health endpoint never succeeds: the
probe returns a non-ok response up to time 7 and the `fetch` call itself
throws (transport error) from time 8 on. -/
def envFetchFlaky : Env :=
  { envAlive with fetchFails := fun t => decide (8 ≤ t) }

/-- A world where no candidate launcher at all is on the search path. -/
def envNoRuntime : Env := { envDead with which := fun _ => false }

/-- The supervisor state carried by a modular monitor result, whether the
loop ran out of fuel or the process exited. -/
def mstate : Except St (St × Nat) → St
  | .error s => s
  | .ok (s, _) => s

/-!  ## Claim theorems -/

/-- C1.  Claim: with a child that immediately dies on every start attempt,
`monitor()` performs exactly `max_restarts (5)` restart attempts and then
terminates the monitor process with a nonzero exit code.  What the code does
at that input: the bash `monitor_server` (which runs under `set -e`) aborts
with exit code 1 after exactly ONE restart attempt — the first failed
attempt's `((restart_count++))` has exit status 1 because the counter's old
value is 0, and `errexit` kills the script — while the `serve-n8n.mjs`
monitor performs exactly five restart attempts (five spawns) and then merely
RETURNS from `monitor_server` after logging `maximum restart attempts
exceeded. exiting.`; no `process.exit` is called, so the Node process
terminates with exit code 0, not nonzero.  Neither variant loops forever and
neither does what the claim says. -/
theorem c1_monitor_restart_bound_eval :
    (Bash.monitor_loop envDead true 3 0 st0).2 = .exited 1 ∧
    countSpawns (Bash.monitor_loop envDead true 3 0 st0).1.trace = 1 ∧
    (Mjs.monitor_loop envDead 8 0 st0).2 = .exited 0 ∧
    countSpawns (Mjs.monitor_loop envDead 8 0 st0).1.trace = 5 ∧
    hasError "maximum restart attempts exceeded. exiting."
      (Mjs.monitor_loop envDead 8 0 st0).1.trace = true := by
  decide

/-- C2, counterexample.  Claim: when the pid record exists but the pid is
dead, reading the tracked process deletes the stale record before returning.
At the concrete state with pid record `123` and a dead process, the
`serve-n8n.mjs` `is_running` reports not running yet LEAVES the record in
place, so the claim is false as stated. -/
theorem c2_self_heal_counterexample :
    (Mjs.is_running envDead (stTracked 123)).2 = none ∧
    (Mjs.is_running envDead (stTracked 123)).1.pidFile = some 123 ∧
    envDead.alive (stTracked 123).time 123 = false := by
  decide

/-- C2, amended.  When the pid record exists but the recorded pid is not
alive, all variants report "not running", but only the bash `is_running`
self-heals by removing the stale pid file; the `serve-n8n.mjs` `is_running`
and the modular `inspect_state` return with the state untouched, leaving the
stale record in place. -/
theorem c2_self_heal_amended (env : Env) (s : St) (pid : Nat)
    (hrec : s.pidFile = some pid) (hdead : env.alive s.time pid = false) :
    Bash.is_running env s = ({ s with pidFile := none }, false) ∧
    Mjs.is_running env s = (s, none) ∧
    Modular.inspect_state env s = (s, none) := by
  refine ⟨?_, ?_, ?_⟩ <;>
    simp [Bash.is_running, Mjs.is_running, Modular.inspect_state,
      Modular.get_pid, hrec, hdead]

/-- C2, witness for the amended theorem at the concrete stale state. -/
theorem c2_self_heal_witness :
    (stTracked 123).pidFile = some 123 ∧
    envDead.alive (stTracked 123).time 123 = false ∧
    (Bash.is_running envDead (stTracked 123)
        = ({ stTracked 123 with pidFile := none }, false) ∧
      Mjs.is_running envDead (stTracked 123) = (stTracked 123, none) ∧
      Modular.inspect_state envDead (stTracked 123) = (stTracked 123, none)) :=
  ⟨rfl, rfl, c2_self_heal_amended envDead (stTracked 123) 123 rfl rfl⟩

/-- C3, counterexample.  Claim: a monitor tick that finds the process alive
but the probe failing only logs a warning and never stops, kills or restarts
the process.  In the modular variant, a tick on a live-but-unhealthy state
(pid 55 alive, probe returning not-ok) calls `restart_server`, which runs a
full `stop_server` against the live process: the trace contains `SIGTERM`
(and even `SIGKILL`) signals to pid 55 and a fresh spawn, refuting the
claim. -/
theorem c3_probe_independence_counterexample :
    envAlive.alive 0 55 = true ∧ envAlive.health 0 = false ∧
    (mstate (Modular.monitor_loop envAlive 2 (stTracked 55))).trace.contains
      (Effect.sigterm 55) = true ∧
    (mstate (Modular.monitor_loop envAlive 2 (stTracked 55))).trace.contains
      (Effect.sigkill 55) = true := by
  decide

/-- C3, amended.  A monitor tick that finds the process alive but unhealthy
logs exactly one warning and sleeps in the bash and `serve-n8n.mjs` monitors
(nothing is signalled, spawned or cleared: the tick is precisely
`emit warning` then `sleep 30`), but the modular `monitor_server` treats any
non-healthy inspection as cause for a restart and stops (signals) the live
process. -/
theorem c3_probe_independence_amended (env : Env) (s : St)
    (pid ct fuel rc : Nat) (ex : Bool)
    (hrec : s.pidFile = some pid) (halive : env.alive s.time pid = true)
    (hunhealthy : env.health s.time = false) :
    Mjs.monitor_loop env (fuel + 1) ct s
      = Mjs.monitor_loop env fuel ct
          (tick 30 (emit (.alert "health check failed, but server is running") s)) ∧
    Bash.monitor_loop env ex (fuel + 1) rc s
      = Bash.monitor_loop env ex fuel rc
          (tick 30 (emit (.alert "Health check failed") s)) ∧
    (mstate (Modular.monitor_loop envAlive 2 (stTracked 55))).trace.contains
      (Effect.sigterm 55) = true := by
  refine ⟨?_, ?_, by decide⟩ <;>
    simp [Mjs.monitor_loop, Bash.monitor_loop, Mjs.is_running, Bash.is_running,
      hrec, halive, hunhealthy]

/-- C3, witness for the amended theorem at a concrete live-but-unhealthy
state. -/
theorem c3_probe_independence_witness :
    (stTracked 55).pidFile = some 55 ∧
    envAlive.alive (stTracked 55).time 55 = true ∧
    envAlive.health (stTracked 55).time = false ∧
    (Mjs.monitor_loop envAlive 1 0 (stTracked 55)
        = Mjs.monitor_loop envAlive 0 0
            (tick 30 (emit (.alert "health check failed, but server is running")
              (stTracked 55))) ∧
      Bash.monitor_loop envAlive true 1 0 (stTracked 55)
        = Bash.monitor_loop envAlive true 0 0
            (tick 30 (emit (.alert "Health check failed") (stTracked 55))) ∧
      (mstate (Modular.monitor_loop envAlive 2 (stTracked 55))).trace.contains
        (Effect.sigterm 55) = true) :=
  ⟨rfl, rfl, rfl,
    c3_probe_independence_amended envAlive (stTracked 55) 55 0 0 0 true rfl rfl rfl⟩

/-- C4.  Claim: against a process that never responds to the graceful
signal, `stop()` sends at most one forceful kill, and only after exhausting
exactly ten one-second graceful-wait ticks.  What the code does at that
input (pid 55 alive at every check):

* bash `stop_server`, as actually invoked (plain command under `set -e`):
  sends one `SIGTERM`, then the first wait tick's `((attempts++))` (old
  value 0) aborts the whole script with exit code 1 after ONE second — no
  `SIGKILL` is ever sent and the pid file is left in place;
* the same bash function with `errexit` suspended shows the INTENDED
  behaviour the claim describes — ten one-second ticks, then exactly one
  `SIGKILL`, pid file removed — demonstrating that the escalation logic is
  there but unreachable as invoked;
* `serve-n8n.mjs` `stop_server` guards its whole escalation block with
  `if (!try_kill())`, i.e. it runs only when the FIRST `SIGTERM` could NOT
  be delivered; for a live unresponsive process the `SIGTERM` is delivered,
  the block is skipped, no wait tick happens, no `SIGKILL` is sent, the pid
  record is cleared immediately and success is logged. -/
theorem c4_stop_escalation_eval :
    Bash.stop_server envAlive true (stTracked 55)
      = .error ({ pidFile := some 55, time := 1,
                  trace := [.info "Stopping n8n server", .sigterm 55],
                  handlers := [] }, 1) ∧
    Bash.stop_server envAlive false (stTracked 55)
      = .ok ({ pidFile := none, time := 10,
               trace := [.info "Stopping n8n server", .sigterm 55,
                         .alert "Graceful shutdown failed, force killing",
                         .sigkill 55, .success "n8n server stopped"],
               handlers := [] }, 0) ∧
    Mjs.stop_server envAlive (stTracked 55)
      = { pidFile := none, time := 0,
          trace := [.info "stopping n8n server", .sigterm 55,
                    .success "server stopped successfully"],
          handlers := [] } :=
  ⟨rfl, rfl, rfl⟩

/-- C5, counterexample.  Claim: calling `start()` while a healthy process is
tracked spawns nothing and RETURNS THE EXISTING PID.  At the concrete state
tracking the live, healthy pid 42, the `serve-n8n.mjs` `start_server` spawns
nothing but returns `undefined` (`return log(...)` evaluates to
`undefined`), not the pid — it only logs it — so the claim is false as
stated. -/
theorem c5_idempotent_start_counterexample :
    envHealthy.alive 0 42 = true ∧ envHealthy.health 0 = true ∧
    (Mjs.start_server envHealthy (stTracked 42)).2 = none ∧
    ¬ (Mjs.start_server envHealthy (stTracked 42)).2 = some 42 ∧
    countSpawns (Mjs.start_server envHealthy (stTracked 42)).1.trace = 0 := by
  decide

/-- C5, amended.  Calling `start()` while a tracked process is alive and
passes the health probe spawns no new child in either Node variant (the
whole call appends exactly one "already running" log line); the modular
`start_server` returns the existing state `[pid, true]`, while the
`serve-n8n.mjs` variant logs the existing pid but returns no value. -/
theorem c5_idempotent_start_amended (env : Env) (s : St) (pid : Nat)
    (hrec : s.pidFile = some pid) (halive : env.alive s.time pid = true)
    (hfetch : env.fetchFails s.time = false) (hhealth : env.health s.time = true) :
    Mjs.start_server env s = (emit (.info "server is already running") s, none) ∧
    Modular.start_server env s
      = (emit (.info "server is already running") s, some (pid, true)) := by
  constructor <;>
    simp [Mjs.start_server, Mjs.is_running, Modular.start_server,
      Modular.inspect_state, Modular.get_pid, hrec, halive, hfetch, hhealth]

/-- C5, witness for the amended theorem at the concrete healthy state. -/
theorem c5_idempotent_start_witness :
    (stTracked 42).pidFile = some 42 ∧
    envHealthy.alive (stTracked 42).time 42 = true ∧
    envHealthy.fetchFails (stTracked 42).time = false ∧
    envHealthy.health (stTracked 42).time = true ∧
    (Mjs.start_server envHealthy (stTracked 42)
        = (emit (.info "server is already running") (stTracked 42), none) ∧
      Modular.start_server envHealthy (stTracked 42)
        = (emit (.info "server is already running") (stTracked 42), some (42, true))) :=
  ⟨rfl, rfl, rfl, rfl,
    c5_idempotent_start_amended envHealthy (stTracked 42) 42 rfl rfl rfl rfl⟩

/-- C6, counterexample.  Claim: when the child is dead at the post-grace
recheck, `start()` reports the failure, CLEARS the tracked pid record and
returns failure.  In the modular variant at the concrete dead-child world,
`start_server` logs `n8n server failed to start` and returns `undefined`,
but the pid record still holds the spawned pid 100 when it returns — the
clearing is left to the process-exit handlers — so the claim is false as
stated. -/
theorem c6_grace_failure_counterexample :
    (Modular.start_server envDead st0).2 = none ∧
    (Modular.start_server envDead st0).1.pidFile = some 100 ∧
    hasError "n8n server failed to start"
      (Modular.start_server envDead st0).1.trace = true ∧
    (Modular.start_server envDead st0).1.time = 5 := by
  decide

/-- C6, amended.  When the spawned child is no longer alive at the recheck
after the 5-second grace period, `start()` reports the startup failure and
returns failure without entering the readiness-polling loop (the elapsed
time is exactly the grace period); the bash variant also clears the tracked
pid record, but the modular variant returns with the record still holding
the dead child's pid. -/
theorem c6_grace_failure_amended (env : Env) (s : St)
    (hrec : s.pidFile = none) (hscan : env.psScan s.time = none)
    (hbun : env.which "bun" = true)
    (hdead : env.alive (s.time + 5) (env.spawnPid s.time) = false) :
    Bash.start_server env false s
      = .ok (emit (.error "n8n server failed to start")
          { tick 5 { emit (.spawn "bun n8n") (emit (.info "Starting n8n server") s) with
              pidFile := some (env.spawnPid s.time) } with pidFile := none }, 1) ∧
    (Modular.start_server env s).2 = none ∧
    (Modular.start_server env s).1.pidFile = some (env.spawnPid s.time) ∧
    (Modular.start_server env s).1.time = s.time + 5 ∧
    hasError "n8n server failed to start" (Modular.start_server env s).1.trace = true := by
  refine ⟨?_, ?_⟩
  · simp [Bash.start_server, Bash.detect_runtime, Bash.get_start_command,
      emit, tick, hbun, hdead]
  · simp only [Modular.start_server, Modular.start_spawn, Modular.inspect_state,
      Modular.get_pid, Modular.set_pid, Modular.install_handlers,
      hrec, hscan, hbun, hdead, emit, tick, hasError]
    simp [hdead, hasError]

/-- C6, witness for the amended theorem at the concrete dead-child world. -/
theorem c6_grace_failure_witness :
    st0.pidFile = none ∧ envDead.psScan st0.time = none ∧
    envDead.which "bun" = true ∧
    envDead.alive (st0.time + 5) (envDead.spawnPid st0.time) = false ∧
    (Bash.start_server envDead false st0
        = .ok (emit (.error "n8n server failed to start")
            { tick 5 { emit (.spawn "bun n8n") (emit (.info "Starting n8n server") st0) with
                pidFile := some (envDead.spawnPid st0.time) } with pidFile := none }, 1) ∧
      (Modular.start_server envDead st0).2 = none ∧
      (Modular.start_server envDead st0).1.pidFile = some (envDead.spawnPid st0.time) ∧
      (Modular.start_server envDead st0).1.time = st0.time + 5 ∧
      hasError "n8n server failed to start" (Modular.start_server envDead st0).1.trace = true) :=
  ⟨rfl, rfl, rfl, rfl, c6_grace_failure_amended envDead st0 rfl rfl rfl rfl⟩

/-- C7.  Claim: when the child stays alive but the bounded startup
readiness loop exhausts all attempts without a successful probe, `start()`
logs a warning, returns success, and the invocation exits 0.  What the code
does:

* bash `start_server`, invoked as the `start` command (plain command under
  `set -e`), with a live child whose probe never succeeds: the FIRST failed
  probe's `((attempts++))` (old value 0) aborts the whole script with exit
  code 1 at time 7 (5s grace + one 2s tick) — the loop can never reach its
  30-attempt exhaustion, and the invocation exits nonzero;
* the modular `start_server`, when every probe fails at the transport level
  (`fetch` throws — here from time 8 on) while the child is alive: the
  shared `try`/`catch` of `inspect_state` makes the live child
  indistinguishable from a dead one, so the loop aborts after one not-ready
  tick, logs `server process died during startup` (though the child is
  alive), and returns failure instead of warning-and-success;
* only when every probe failure is a well-formed non-ok HTTP response does
  the modular loop behave as claimed: six not-ready ticks, the warning, and
  a success return of the (unhealthy) state. -/
theorem c7_startup_poll_exhaustion_eval :
    Bash.start_server envAlive true st0
      = .error ({ pidFile := some 100, time := 7,
                  trace := [.info "Starting n8n server", .spawn "bun n8n",
                            .success "n8n server started successfully",
                            .alert "Waiting for server to be ready"],
                  handlers := [] }, 1) ∧
    ((Modular.start_server envFetchFlaky st0).2 = none ∧
      hasError "server process died during startup"
        (Modular.start_server envFetchFlaky st0).1.trace = true ∧
      envFetchFlaky.alive (Modular.start_server envFetchFlaky st0).1.time 100 = true) ∧
    ((Modular.start_server envAlive st0).2 = some (100, false) ∧
      (Modular.start_server envAlive st0).1.trace.contains
        (Effect.alert "health check failed, but the process is running") = true) :=
  ⟨rfl, by decide, by decide⟩

/-- C8, counterexample.  Claim: when the process survives even the forceful
kill, `stop()` reports the unkillable-process error state but STILL CLEARS
the tracked pid record.  In the modular variant against the unkillable live
pid 55, `stop_server` logs `could not kill process` and returns the live
state — but the pid record still holds 55 when it returns (`set_pid(null)`
runs only on the confirmed-dead path), so the claim is false as stated. -/
theorem c8_unkillable_counterexample :
    (Modular.stop_server envAlive (stTracked 55)).2 = some (55, false) ∧
    (Modular.stop_server envAlive (stTracked 55)).1.pidFile = some 55 ∧
    hasError "could not kill process"
      (Modular.stop_server envAlive (stTracked 55)).1.trace = true ∧
    countSigkills (Modular.stop_server envAlive (stTracked 55)).1.trace = 1 := by
  decide

/-- C8, amended.  Against a process that stays alive through every signal,
the modular `stop_server` reports the could-not-kill error and returns the
live state `[pid, health]`, but LEAVES the tracked pid record in place
(escalating to `SIGKILL` after only two seconds, not ten); `serve-n8n.mjs`'s
`stop_server` conversely always clears the record, but its inverted
escalation guard means it sends only the initial `SIGTERM` and reports
success, never the error state.  No tracked pid surviving a completed stop
holds only for the mjs variant. -/
theorem c8_unkillable_amended (env : Env) (s : St) (pid : Nat)
    (hrec : s.pidFile = some pid)
    (halive : ∀ t, env.alive t pid = true)
    (hfetch : ∀ t, env.fetchFails t = false) :
    Modular.stop_server env s
      = (emit (.error "could not kill process")
          (emit (.sigkill pid)
            (emit (.alert "graceful shutdown failed; force killing")
              (tick 1 (emit (.sigterm pid)
                (tick 1 (emit (.sigterm pid)
                  (emit (.info "stopping n8n server") s))))))),
         some (pid, env.health (s.time + 1 + 1))) ∧
    Mjs.stop_server env s
      = emit (.success "server stopped successfully")
          { emit (.sigterm pid) (emit (.info "stopping n8n server") s) with
            pidFile := none } := by
  constructor
  · simp [Modular.stop_server, Modular.inspect_state, Modular.get_pid,
      Modular.try_kill, Modular.refresh, Modular.stop_wait_loop,
      Modular.set_pid, emit, tick, hrec, halive, hfetch]
  · simp [Mjs.stop_server, Mjs.is_running, Mjs.try_kill, emit, tick,
      hrec, halive]

/-- C8, witness for the amended theorem at the concrete unkillable state. -/
theorem c8_unkillable_witness :
    (stTracked 55).pidFile = some 55 ∧
    (∀ t, envAlive.alive t 55 = true) ∧
    (∀ t, envAlive.fetchFails t = false) ∧
    (Modular.stop_server envAlive (stTracked 55)
        = (emit (.error "could not kill process")
            (emit (.sigkill 55)
              (emit (.alert "graceful shutdown failed; force killing")
                (tick 1 (emit (.sigterm 55)
                  (tick 1 (emit (.sigterm 55)
                    (emit (.info "stopping n8n server") (stTracked 55)))))))),
           some (55, envAlive.health ((stTracked 55).time + 1 + 1))) ∧
      Mjs.stop_server envAlive (stTracked 55)
        = emit (.success "server stopped successfully")
            { emit (.sigterm 55) (emit (.info "stopping n8n server") (stTracked 55)) with
              pidFile := none }) :=
  ⟨rfl, fun _ => rfl, fun _ => rfl,
    c8_unkillable_amended envAlive (stTracked 55) 55 rfl (fun _ => rfl) (fun _ => rfl)⟩

/-- C9, counterexample.  Claim: whenever at least one of `{bun, npx, npm}`
is available, the first available one in that order is selected by
`start()`.  In a world where ONLY `npx` is available, the bash
`detect_runtime` would select it, but the modular `start_server` — whose
candidate list is only `bun` then `npm` — spawns nothing and fails with the
no-runtime error despite `npx` being available, so the claim is false as
stated. -/
theorem c9_runtime_selection_counterexample :
    envNpxOnly.which "npx" = true ∧
    Bash.detect_runtime envNpxOnly = some "npx" ∧
    (Modular.start_server envNpxOnly st0).2 = none ∧
    (Modular.start_server envNpxOnly st0).1.pidFile = none ∧
    countSpawns (Modular.start_server envNpxOnly st0).1.trace = 0 ∧
    hasError "no node runtime detected"
      (Modular.start_server envNpxOnly st0).1.trace = true := by
  decide

/-- C9, amended.  When no candidate launcher is available, `start()` fails
immediately with the no-runtime error and writes no pid record in both
variants; but the candidate lists differ: bash tries `bun`, `npx`, `npm` in
order, while the modular variant tries only `bun` then `npm` — it fails with
`no node runtime detected` whenever those two are absent, regardless of
whether `npx` is available. -/
theorem c9_runtime_selection_amended (env : Env) (s : St) (ex : Bool)
    (hrec : s.pidFile = none) (hscan : env.psScan s.time = none)
    (hbun : env.which "bun" = false) (hnpm : env.which "npm" = false) :
    ((Modular.start_server env s).2 = none ∧
      (Modular.start_server env s).1.pidFile = none ∧
      (Modular.start_server env s).1.time = s.time ∧
      (Modular.start_server env s).1.trace
        = s.trace ++ [.info "starting n8n server", .error "no node runtime detected"]) ∧
    (env.which "npx" = false →
      Bash.start_server env ex s
        = .error (emit (.error "No suitable Node.js runtime found") s, 1)) := by
  constructor
  · simp [Modular.start_server, Modular.start_spawn, Modular.inspect_state,
      Modular.get_pid, Modular.set_pid, emit, hrec, hscan, hbun, hnpm]
  · intro hnpx
    simp [Bash.start_server, Bash.detect_runtime, hbun, hnpm, hnpx]

/-- C9, witness for the amended theorem in the world with no runtime at
all. -/
theorem c9_runtime_selection_witness :
    st0.pidFile = none ∧ envNoRuntime.psScan st0.time = none ∧
    envNoRuntime.which "bun" = false ∧ envNoRuntime.which "npm" = false ∧
    envNoRuntime.which "npx" = false ∧
    ((Modular.start_server envNoRuntime st0).2 = none ∧
      (Modular.start_server envNoRuntime st0).1.pidFile = none ∧
      (Modular.start_server envNoRuntime st0).1.time = st0.time ∧
      (Modular.start_server envNoRuntime st0).1.trace
        = st0.trace ++ [.info "starting n8n server", .error "no node runtime detected"]) ∧
    Bash.start_server envNoRuntime true st0
      = .error (emit (.error "No suitable Node.js runtime found") st0, 1) :=
  ⟨rfl, rfl, rfl, rfl, rfl,
    (c9_runtime_selection_amended envNoRuntime st0 true rfl rfl rfl rfl).1,
    (c9_runtime_selection_amended envNoRuntime st0 true rfl rfl rfl rfl).2 rfl⟩

/-- C10, counterexample.  Claim: because a successful `start_server()`
registers pid-clearing handlers on `beforeExit`, `uncaughtException`,
`SIGINT` and `SIGTERM`, the pid record is cleared whenever the supervisor
process terminates, FOR ANY REASON.  After the concrete successful start
(which does register exactly those four handlers), a termination via
`process.exit` — the very call the modular `monitor_server` uses when
restarts are exhausted — fires none of those events, and the pid record
survives it, so the "for any reason" claim is false as stated. -/
theorem c10_exit_handlers_counterexample :
    (Modular.start_server envHealthy st0).2 = some (100, true) ∧
    (Modular.start_server envHealthy st0).1.handlers
      = [TermEvent.beforeExit, TermEvent.uncaughtException,
         TermEvent.sigint, TermEvent.sigterm] ∧
    (Modular.start_server envHealthy st0).1.pidFile = some 100 ∧
    (Modular.terminate_supervisor .explicitExit
        (Modular.start_server envHealthy st0).1).pidFile = some 100 := by
  decide

/-- C10, amended.  A successful modular `start_server` registers handlers
for exactly `beforeExit`, `uncaughtException`, `SIGINT` and `SIGTERM`, each
of which deletes the pid record; consequently the record is cleared whenever
the supervisor terminates THROUGH ONE OF THOSE FOUR EVENTS — but not on
terminations that bypass them, such as an explicit `process.exit` (used by
`monitor_server` itself) or an untrappable kill. -/
theorem c10_exit_handlers_amended (s : St) (c : Modular.TermCause)
    (hc : Modular.firedEvent c ≠ none) :
    (Modular.install_handlers s).handlers
      = [TermEvent.beforeExit, TermEvent.uncaughtException,
         TermEvent.sigint, TermEvent.sigterm] ∧
    (Modular.terminate_supervisor c (Modular.install_handlers s)).pidFile = none := by
  cases c <;>
    first
      | exact absurd rfl hc
      | exact ⟨rfl, rfl⟩

/-- C10, witness for the amended theorem at the `SIGINT` termination
cause. -/
theorem c10_exit_handlers_witness :
    Modular.firedEvent Modular.TermCause.sigint ≠ none ∧
    ((Modular.install_handlers st0).handlers
        = [TermEvent.beforeExit, TermEvent.uncaughtException,
           TermEvent.sigint, TermEvent.sigterm] ∧
      (Modular.terminate_supervisor Modular.TermCause.sigint
          (Modular.install_handlers st0)).pidFile = none) :=
  ⟨by decide, c10_exit_handlers_amended st0 Modular.TermCause.sigint (by decide)⟩

end Supervisor
